import Mathlib

/-!
Verification development for the Emotiva Fusion Flex RS232 driver
(package emotiva_rs232, file fusion_flex.py).

The protocol engine is embedded shallowly:
* wire strings are lists of characters (the apostrophe character, code 39,
  is written `apos` throughout);
* the frame reassembler `FusionFlexProtocol._process_data` becomes the pure
  function `processData` over an explicit buffer;
* the status state machine `FusionFlexDevice._process_message` becomes
  `processMessagePure` (value semantics) and `processMessageHeap`
  (explicit-heap semantics capturing Python object aliasing);
* floats are modelled as rationals: every numeric literal the code
  manipulates (multiples of 0.1 with at most two integer digits, and the
  constants 95.5 and 0.0) is handled exactly by binary floating point at
  these magnitudes, so the rational model is exact.
-/

set_option maxRecDepth 4000

/-- The apostrophe character (ASCII 39), the message end token of the
protocol and the first character of the message start token. -/
def apos : Char := Char.ofNat 39

/-- The message start token, source constant `_MESSAGE_START_STR` (an
apostrophe followed by an at sign). -/
def msgStart : List Char := [apos, '@']

/-- Maximum reassembly buffer size, source constant `_BUFFER_SIZE`. -/
def BUFFER_SIZE : Nat := 16

/-! Wire strings of `RS232Command` (each is apostrophe + at + payload +
apostrophe). -/

def POWER_ON : List Char := [apos, '@', '1', '1', '2', apos]
def POWER_OFF : List Char := [apos, '@', '1', '1', '3', apos]
def SELECT_INPUT_1 : List Char := [apos, '@', '1', '5', 'A', apos]
def SELECT_INPUT_2 : List Char := [apos, '@', '1', '5', 'B', apos]
def SELECT_INPUT_AUTO : List Char := [apos, '@', '1', '5', 'Z', apos]
def MUTE_ON : List Char := [apos, '@', '1', '1', 'Q', apos]
def MUTE_OFF : List Char := [apos, '@', '1', '1', 'R', apos]
def MUTE_TOGGLE : List Char := [apos, '@', '1', '1', 'U', apos]
def VOLUME_UP : List Char := [apos, '@', '1', '1', 'S', apos]
def VOLUME_DOWN : List Char := [apos, '@', '1', '1', 'T', apos]

/-! ## Frame reassembler (`FusionFlexProtocol._process_data`) -/

/-- Python `data_str.split(_MESSAGE_START_STR)`: split a character list on
every (leftmost, non-overlapping) occurrence of the two-character start
token, keeping empty segments, exactly like `str.split` with a non-empty
separator. -/
def splitStart : List Char → List (List Char)
  | [] => [[]]
  | [c] => [[c]]
  | c1 :: c2 :: rest =>
    if c1 = apos ∧ c2 = '@' then
      [] :: splitStart rest
    else
      match splitStart (c2 :: rest) with
      | [] => [[c1]]
      | s :: ss => (c1 :: s) :: ss

/-- The segment loop of `FusionFlexProtocol._process_data`, carrying the
reassembly buffer and the `first_segment` flag.  Returns the final buffer
and the messages handed to `_process_message`, in order.  The source
returns from inside the loop when a segment has no end token (after either
appending to the buffer or discarding it on overflow), which is why both
of those branches stop processing the remaining segments. -/
def processSegments : List Char → Bool → List (List Char) → List Char × List (List Char)
  | buf, _, [] => (buf, [])
  | buf, first, seg :: rest =>
    if seg.isEmpty then processSegments buf false rest
    else
      let buf1 := if first then buf else msgStart
      if msgStart.isPrefixOf buf1 then
        if seg.contains apos then
          let r := processSegments [] false rest
          (r.1, (buf1 ++ seg) :: r.2)
        else
          if buf1.length + seg.length ≤ BUFFER_SIZE then (buf1 ++ seg, [])
          else ([], [])
      else
        processSegments buf1 false rest

/-- `FusionFlexProtocol._process_data`: decode a chunk (decoding is the
identity in this character-level model), split it on the start token and
run the segment loop.  Input: current buffer and chunk; output: new buffer
and emitted messages. -/
def processData (buf : List Char) (chunk : List Char) : List Char × List (List Char) :=
  processSegments buf true (splitStart chunk)

/-! ## Volume-report pattern (`re.search` with the anchored pattern
start + 11 + one of S,T,P + minus + two digits + dot + 0 or 5 + end) -/

/-- ASCII decimal digit test (regex class for a digit). -/
def isAsciiDigit (c : Char) : Prop := 48 ≤ c.toNat ∧ c.toNat ≤ 57

instance (c : Char) : Decidable (isAsciiDigit c) := by
  unfold isAsciiDigit; infer_instance

/-- Numeric value of an ASCII digit character, as a rational. -/
def digitVal (c : Char) : ℚ := (c.toNat : ℚ) - 48

/-- One anchored match of the volume-report pattern against the whole
string: eleven characters, fixed frame, and the captured group parsed the
way Python `float` parses the captured text `-DD.F` (exact here because
such values are exactly representable in binary floating point). -/
def volumeCore : List Char → Option ℚ
  | [a1, b, o1, o2, c, m, d1, d2, dot, f, a2] =>
    if a1 = apos ∧ b = '@' ∧ o1 = '1' ∧ o2 = '1' ∧ (c = 'S' ∨ c = 'T' ∨ c = 'P') ∧
        m = '-' ∧ isAsciiDigit d1 ∧ isAsciiDigit d2 ∧ dot = '.' ∧ (f = '0' ∨ f = '5') ∧
        a2 = apos then
      some (-(digitVal d1 * 10 + digitVal d2 + digitVal f / 10))
    else none
  | _ => none

/-- Python `re.search` with a pattern anchored by a caret and a dollar:
a match is found when the whole string matches, or when the string is the
match followed by a single trailing newline (the dollar anchor also
matches just before a final newline). -/
def matchVolume (msg : List Char) : Option ℚ :=
  match volumeCore msg with
  | some v => some v
  | none =>
    if msg.getLast? = some (Char.ofNat 10) then volumeCore msg.dropLast
    else none

/-! ## Status snapshot (`FusionFlexStatus`) and source modes -/

/-- `FusionFlexSourceMode`: supported input source modes. -/
inductive FusionFlexSourceMode where
  | AUTO
  | INPUT_1
  | INPUT_2
deriving DecidableEq

/-- `FusionFlexStatus`: the status snapshot, with the four fields set by
`__init__` (volume, source mode and mute flag start undefined). -/
structure FusionFlexStatus where
  is_turned_on : Bool
  volume_db : Option ℚ
  source_mode : Option FusionFlexSourceMode
  is_muted : Option Bool
deriving DecidableEq

/-- `FusionFlexStatus(True)`, the snapshot created lazily on the first
inbound message. -/
def initialStatus : FusionFlexStatus :=
  { is_turned_on := true, volume_db := none, source_mode := none, is_muted := none }

/-! ## Status state machine (`FusionFlexDevice._process_message`) -/

/-- The branch chain of `_process_message`: volume-report pattern first,
then the fixed command strings, in source order; an unmatched message
yields `none` (the source logs and returns). -/
def stepStatus (status : FusionFlexStatus) (msg : List Char) : Option FusionFlexStatus :=
  match matchVolume msg with
  | some v => some { status with volume_db := some v }
  | none =>
    if msg = POWER_ON then some { status with is_turned_on := true }
    else if msg = POWER_OFF then some { status with is_turned_on := false }
    else if msg = SELECT_INPUT_1 then some { status with source_mode := some .INPUT_1 }
    else if msg = SELECT_INPUT_2 then some { status with source_mode := some .INPUT_2 }
    else if msg = SELECT_INPUT_AUTO then some { status with source_mode := some .AUTO }
    else if msg = MUTE_ON then some { status with is_muted := some true }
    else if msg = MUTE_OFF then some { status with is_muted := some false }
    else none

/-- The post-processing rule of `_process_message`: any accepted message
other than the power-off wire string forces the power flag to true. -/
def applyPost (msg : List Char) (st : FusionFlexStatus) : FusionFlexStatus :=
  if msg = POWER_OFF then st else { st with is_turned_on := true }

/-- One accepted transition of `_process_message` on an explicit status
value: branch chain followed by the post-processing rule. -/
def processStatus (status : FusionFlexStatus) (msg : List Char) : Option FusionFlexStatus :=
  (stepStatus status msg).map (applyPost msg)

/-- `_process_message` at the device level, value semantics: takes the
optional current status (starting from the lazily created initial status
when there is none yet), returns the optional current status afterwards
and whether the status-changed callback fired. -/
def processMessagePure (cur : Option FusionFlexStatus) (msg : List Char) :
    Option FusionFlexStatus × Bool :=
  match processStatus (cur.getD initialStatus) msg with
  | none => (cur, false)
  | some st => (some st, true)

/-! ## Heap semantics of `_process_message`

Python attribute assignment mutates the referenced object.  To talk about
object identity of published snapshots we model a heap of status objects
addressed by allocation index: `status = self._status` takes the
reference, the property setters mutate the referenced cell, and
`self._status = status` stores the same reference back.  When no status
exists yet a fresh object is allocated at the end of the heap. -/

structure DevState where
  heap : List FusionFlexStatus
  statusRef : Option Nat
deriving DecidableEq

/-- `_process_message` with explicit object identity: an accepted message
either mutates the cell the current reference points to, or allocates a
fresh cell when no snapshot exists yet; a discarded message changes
nothing. -/
def processMessageHeap (s : DevState) (msg : List Char) : DevState :=
  match s.statusRef with
  | some r =>
    match s.heap.get? r with
    | none => s
    | some st =>
      match processStatus st msg with
      | none => s
      | some st1 => { s with heap := s.heap.set r st1 }
  | none =>
    match processStatus initialStatus msg with
    | none => s
    | some st1 => { heap := s.heap ++ [st1], statusRef := some s.heap.length }

/-! ## Volume codec (static methods of `FusionFlexDevice`) -/

/-- Source constant `MIN_VOLUME_DB` (minus 95.5). -/
def MIN_VOLUME_DB : ℚ := -(191/2)

/-- Source constant `MAX_VOLUME_DB`. -/
def MAX_VOLUME_DB : ℚ := 0

/-- Errors raised by the device layer: `outOfRange` stands for the
`ValueError` raised by the codec guards, `notConnected` for the failure
of `_send_command` when no protocol object exists (attribute access on a
missing protocol), which happens before any transport write. -/
inductive DeviceError where
  | notConnected
  | outOfRange
deriving DecidableEq

/-- `FusionFlexDevice.volume_fraction_to_decibels`. -/
def volume_fraction_to_decibels (value_fraction : ℚ) : Except DeviceError ℚ :=
  if value_fraction < 0 ∨ value_fraction > 1 then .error .outOfRange
  else .ok (MIN_VOLUME_DB + value_fraction * (MAX_VOLUME_DB - MIN_VOLUME_DB))

/-- `FusionFlexDevice.volume_decibels_to_fraction`. -/
def volume_decibels_to_fraction (value_decibels : ℚ) : Except DeviceError ℚ :=
  if value_decibels < MIN_VOLUME_DB ∨ value_decibels > MAX_VOLUME_DB then .error .outOfRange
  else .ok ((value_decibels - MIN_VOLUME_DB) / (MAX_VOLUME_DB - MIN_VOLUME_DB))

/-! ## Volume command encoder (`set_volume_level_decibels`) -/

/-- Python builtin `round` on an exact rational: round to the nearest
integer, ties to the even neighbour. -/
def pyRound (q : ℚ) : ℤ :=
  if q - ⌊q⌋ < 1/2 then ⌊q⌋
  else if 1/2 < q - ⌊q⌋ then ⌊q⌋ + 1
  else if 2 ∣ ⌊q⌋ then ⌊q⌋ else ⌊q⌋ + 1

/-- Rendering of the nonnegative value `k / 2` by the Python format spec
04.1f: the decimal digits of the integer part (zero padded on the left so
the whole rendering is at least four characters wide, which means at
least two integer digits), a dot, and the single exact fraction digit. -/
def format04_1f (k : Nat) : List Char :=
  (if (Nat.toDigits 10 (k / 2)).length < 2 then
      List.replicate (2 - (Nat.toDigits 10 (k / 2)).length) '0' ++ Nat.toDigits 10 (k / 2)
    else Nat.toDigits 10 (k / 2)) ++
    ['.', if k % 2 = 1 then '5' else '0']

/-- `set_volume_level_decibels` command construction: round twice the
value to an integer, halve, take the absolute value, and splice the 04.1f
rendering into the `SET_VOLUME_DB_FORMAT` template. -/
def encodeVolume (value : ℚ) : List Char :=
  [apos, '@', '1', '1', 'P', '-'] ++ format04_1f (pyRound (2 * value)).natAbs ++ [apos]

/-- The volume-set wire format exactly as the specification words it: the
start token, `11P-`, a zero-padded two-digit integer part, a dot, one
fraction digit, and the end token, for the magnitude `k / 2`. -/
def specSetVolumeFormat (k : Nat) : List Char :=
  [apos, '@', '1', '1', 'P', '-', Nat.digitChar (k / 2 / 10), Nat.digitChar (k / 2 % 10),
    '.', if k % 2 = 1 then '5' else '0', apos]

/-! ## Command-sending operations of `FusionFlexDevice`

`_send_command` ultimately calls `send` on the protocol object; we model
the protocol slot as an `Option` (it is `None` before `async_start` and
after `stop`) and return either the list of transport writes performed or
the error that interrupted the call before any write. -/

def sendCommand (proto : Option Unit) (cmd : List Char) :
    Except DeviceError (List (List Char)) :=
  match proto with
  | none => .error .notConnected
  | some _ => .ok [cmd]

def turn_on (p : Option Unit) : Except DeviceError (List (List Char)) :=
  sendCommand p POWER_ON

def turn_off (p : Option Unit) : Except DeviceError (List (List Char)) :=
  sendCommand p POWER_OFF

def mute_on (p : Option Unit) : Except DeviceError (List (List Char)) :=
  sendCommand p MUTE_ON

def mute_off (p : Option Unit) : Except DeviceError (List (List Char)) :=
  sendCommand p MUTE_OFF

def mute_toggle (p : Option Unit) : Except DeviceError (List (List Char)) :=
  sendCommand p MUTE_TOGGLE

def set_volume_level_decibels (p : Option Unit) (value : ℚ) :
    Except DeviceError (List (List Char)) :=
  sendCommand p (encodeVolume value)

def set_volume_level_fraction (p : Option Unit) (value : ℚ) :
    Except DeviceError (List (List Char)) :=
  match volume_fraction_to_decibels value with
  | .error e => .error e
  | .ok d => set_volume_level_decibels p d

def select_input_source (p : Option Unit) (source : FusionFlexSourceMode) :
    Except DeviceError (List (List Char)) :=
  sendCommand p
    (match source with
      | .AUTO => SELECT_INPUT_AUTO
      | .INPUT_1 => SELECT_INPUT_1
      | .INPUT_2 => SELECT_INPUT_2)

def volume_up (p : Option Unit) : Except DeviceError (List (List Char)) :=
  sendCommand p VOLUME_UP

def volume_down (p : Option Unit) : Except DeviceError (List (List Char)) :=
  sendCommand p VOLUME_DOWN

/-! ## Helper lemmas -/

lemma applyPost_volume_db (msg : List Char) (st : FusionFlexStatus) :
    (applyPost msg st).volume_db = st.volume_db := by
  unfold applyPost; split_ifs <;> rfl

lemma applyPost_source_mode (msg : List Char) (st : FusionFlexStatus) :
    (applyPost msg st).source_mode = st.source_mode := by
  unfold applyPost; split_ifs <;> rfl

lemma applyPost_is_muted (msg : List Char) (st : FusionFlexStatus) :
    (applyPost msg st).is_muted = st.is_muted := by
  unfold applyPost; split_ifs <;> rfl

/-- Exhaustive description of the accepted branches of the branch chain. -/
lemma stepStatus_cases {status : FusionFlexStatus} {msg : List Char}
    {st1 : FusionFlexStatus} (h : stepStatus status msg = some st1) :
    (∃ v, matchVolume msg = some v ∧ st1 = { status with volume_db := some v }) ∨
    (msg = POWER_ON ∧ st1 = { status with is_turned_on := true }) ∨
    (msg = POWER_OFF ∧ st1 = { status with is_turned_on := false }) ∨
    (msg = SELECT_INPUT_1 ∧ st1 = { status with source_mode := some .INPUT_1 }) ∨
    (msg = SELECT_INPUT_2 ∧ st1 = { status with source_mode := some .INPUT_2 }) ∨
    (msg = SELECT_INPUT_AUTO ∧ st1 = { status with source_mode := some .AUTO }) ∨
    (msg = MUTE_ON ∧ st1 = { status with is_muted := some true }) ∨
    (msg = MUTE_OFF ∧ st1 = { status with is_muted := some false }) := by
  unfold stepStatus at h
  rcases hm : matchVolume msg with _ | v <;> rw [hm] at h
  · dsimp only at h
    split_ifs at h with h1 h2 h3 h4 h5 h6 h7 <;> simp_all
  · dsimp only at h
    exact Or.inl ⟨v, rfl, (Option.some.injEq _ _ ▸ h).symm⟩

/-- A message matching no branch is rejected by the branch chain. -/
lemma stepStatus_none {status : FusionFlexStatus} {msg : List Char}
    (hm : matchVolume msg = none)
    (h1 : msg ≠ POWER_ON) (h2 : msg ≠ POWER_OFF)
    (h3 : msg ≠ SELECT_INPUT_1) (h4 : msg ≠ SELECT_INPUT_2)
    (h5 : msg ≠ SELECT_INPUT_AUTO) (h6 : msg ≠ MUTE_ON) (h7 : msg ≠ MUTE_OFF) :
    stepStatus status msg = none := by
  unfold stepStatus
  rw [hm]
  dsimp only
  rw [if_neg h1, if_neg h2, if_neg h3, if_neg h4, if_neg h5, if_neg h6, if_neg h7]

lemma digitVal_c0 : digitVal '0' = 0 := by
  unfold digitVal; rw [show Char.toNat '0' = 48 from rfl]; norm_num

lemma digitVal_c3 : digitVal '3' = 3 := by
  unfold digitVal; rw [show Char.toNat '3' = 51 from rfl]; norm_num

lemma digitVal_c5 : digitVal '5' = 5 := by
  unfold digitVal; rw [show Char.toNat '5' = 53 from rfl]; norm_num

lemma digitVal_c9 : digitVal '9' = 9 := by
  unfold digitVal; rw [show Char.toNat '9' = 57 from rfl]; norm_num

lemma digitVal_bounds {c : Char} (h : isAsciiDigit c) :
    0 ≤ digitVal c ∧ digitVal c ≤ 9 := by
  obtain ⟨h1, h2⟩ := h
  unfold digitVal
  constructor
  · have : (48 : ℚ) ≤ (c.toNat : ℚ) := by exact_mod_cast h1
    linarith
  · have : ((c.toNat : ℚ)) ≤ 57 := by exact_mod_cast h2
    linarith

/-- Every value captured by the volume-report pattern lies in the interval
from minus 99.5 to 0 and is an integer number of half-dB steps. -/
lemma volumeCore_bounds {l : List Char} {v : ℚ} (h : volumeCore l = some v) :
    -(199/2) ≤ v ∧ v ≤ 0 ∧ ∃ k : ℤ, v = (k : ℚ) / 2 := by
  unfold volumeCore at h
  split at h
  case h_2 => exact absurd h (by simp)
  rename_i a1 b0 o1 o2 c m d1 d2 dot f a2
  split_ifs at h with hc
  obtain ⟨-, -, -, -, -, -, hd1, hd2, -, hf, -⟩ := hc
  obtain ⟨ha0, ha9⟩ := digitVal_bounds hd1
  obtain ⟨hb0, hb9⟩ := digitVal_bounds hd2
  have hfv : digitVal f = 0 ∨ digitVal f = 5 := by
    rcases hf with rfl | rfl
    · exact Or.inl digitVal_c0
    · exact Or.inr digitVal_c5
  obtain rfl : -(digitVal d1 * 10 + digitVal d2 + digitVal f / 10) = v := by
    simpa using h
  obtain ⟨a, ha⟩ : ∃ a : ℤ, digitVal d1 = (a : ℚ) :=
    ⟨(Char.toNat d1 : ℤ) - 48, by unfold digitVal; push_cast; ring⟩
  obtain ⟨b, hb⟩ : ∃ b : ℤ, digitVal d2 = (b : ℚ) :=
    ⟨(Char.toNat d2 : ℤ) - 48, by unfold digitVal; push_cast; ring⟩
  refine ⟨?_, ?_, ?_⟩
  · rcases hfv with hfx | hfx <;> rw [hfx] <;> linarith
  · rcases hfv with hfx | hfx <;> rw [hfx] <;> linarith
  · rcases hfv with hf0 | hf5
    · exact ⟨-(20 * a + 2 * b), by rw [ha, hb, hf0]; push_cast; ring⟩
    · exact ⟨-(20 * a + 2 * b + 1), by rw [ha, hb, hf5]; push_cast; ring⟩

/-- The range facts transfer from the core pattern to the full search
(including the trailing-newline acceptance of the dollar anchor). -/
lemma matchVolume_bounds {msg : List Char} {v : ℚ} (h : matchVolume msg = some v) :
    -(199/2) ≤ v ∧ v ≤ 0 ∧ ∃ k : ℤ, v = (k : ℚ) / 2 := by
  unfold matchVolume at h
  rcases hc : volumeCore msg with _ | w <;> rw [hc] at h <;> dsimp only at h
  · split_ifs at h with hn
    exact volumeCore_bounds h
  · obtain rfl : w = v := by simpa using h
    exact volumeCore_bounds hc

/-! ## Claim C8 -/

/-- C8: for every fraction in the unit interval, converting to decibels
and back returns the original fraction (exactly, in the rational model of
the float arithmetic); both codec functions are pure by construction. -/
theorem volume_codec_roundtrip (f : ℚ) (h0 : 0 ≤ f) (h1 : f ≤ 1) :
    volume_fraction_to_decibels f =
      .ok (MIN_VOLUME_DB + f * (MAX_VOLUME_DB - MIN_VOLUME_DB)) ∧
    volume_decibels_to_fraction (MIN_VOLUME_DB + f * (MAX_VOLUME_DB - MIN_VOLUME_DB)) =
      .ok f := by
  constructor
  · unfold volume_fraction_to_decibels
    rw [if_neg]
    push_neg
    constructor <;> linarith
  · unfold volume_decibels_to_fraction MIN_VOLUME_DB MAX_VOLUME_DB
    rw [if_neg]
    · congr 1
      field_simp
      ring
    · push_neg
      constructor <;> nlinarith

/-- Witness for C8 at the fraction one half. -/
theorem volume_codec_roundtrip_witness :
    volume_fraction_to_decibels (1/2) =
      .ok (MIN_VOLUME_DB + (1/2) * (MAX_VOLUME_DB - MIN_VOLUME_DB)) ∧
    volume_decibels_to_fraction (MIN_VOLUME_DB + (1/2) * (MAX_VOLUME_DB - MIN_VOLUME_DB)) =
      .ok (1/2) :=
  volume_codec_roundtrip (1/2) (by norm_num) (by norm_num)

/-! ## Claim C9 -/

/-- C9: every command-sending operation invoked while no protocol object
exists (the device is not connected) fails with the not-connected error,
and no transport write is performed (a write is only ever recorded in a
successful result). -/
theorem commands_require_connection (v f : ℚ) (s : FusionFlexSourceMode)
    (hf0 : 0 ≤ f) (hf1 : f ≤ 1) :
    turn_on none = .error .notConnected ∧
    turn_off none = .error .notConnected ∧
    mute_on none = .error .notConnected ∧
    mute_off none = .error .notConnected ∧
    mute_toggle none = .error .notConnected ∧
    set_volume_level_decibels none v = .error .notConnected ∧
    set_volume_level_fraction none f = .error .notConnected ∧
    select_input_source none s = .error .notConnected ∧
    volume_up none = .error .notConnected ∧
    volume_down none = .error .notConnected := by
  refine ⟨rfl, rfl, rfl, rfl, rfl, rfl, ?_, rfl, rfl, rfl⟩
  unfold set_volume_level_fraction volume_fraction_to_decibels
  rw [if_neg (by push_neg; constructor <;> linarith)]
  rfl

/-- Witness for C9 at volume zero, fraction one half and the automatic
source mode. -/
theorem commands_require_connection_witness :
    turn_on none = .error .notConnected ∧
    turn_off none = .error .notConnected ∧
    mute_on none = .error .notConnected ∧
    mute_off none = .error .notConnected ∧
    mute_toggle none = .error .notConnected ∧
    set_volume_level_decibels none 0 = .error .notConnected ∧
    set_volume_level_fraction none (1/2) = .error .notConnected ∧
    select_input_source none .AUTO = .error .notConnected ∧
    volume_up none = .error .notConnected ∧
    volume_down none = .error .notConnected :=
  commands_require_connection 0 (1/2) .AUTO (by norm_num) (by norm_num)

/-! ## Claim C4 -/

/-- C4: every accepted message other than the power-off wire string leaves
the device reported as turned on, and in particular processing the
power-off string followed by the mute-on string ends with the device on
and muted. -/
theorem accepted_message_forces_power_on :
    (∀ cur msg st1, processMessagePure cur msg = (some st1, true) → msg ≠ POWER_OFF →
      st1.is_turned_on = true) ∧
    processMessagePure (processMessagePure none POWER_OFF).1 MUTE_ON =
      (some { is_turned_on := true, volume_db := none, source_mode := none,
              is_muted := some true }, true) := by
  constructor
  · intro cur msg st1 h hne
    unfold processMessagePure at h
    rcases hp : processStatus (cur.getD initialStatus) msg with _ | st
    · rw [hp] at h
      simp at h
    · rw [hp] at h
      dsimp only at h
      have hst : st = st1 := by simpa using h
      subst hst
      unfold processStatus at hp
      rcases hs : stepStatus (cur.getD initialStatus) msg with _ | st0
      · rw [hs] at hp
        simp at hp
      · rw [hs] at hp
        have hap : applyPost msg st0 = st := by simpa using hp
        rw [← hap]
        unfold applyPost
        rw [if_neg hne]
  · decide

/-- Witness for C4 at the power-on wire string from an undefined status. -/
theorem accepted_message_forces_power_on_witness :
    ({ is_turned_on := true, volume_db := none, source_mode := none,
       is_muted := none } : FusionFlexStatus).is_turned_on = true :=
  accepted_message_forces_power_on.1 none POWER_ON
    { is_turned_on := true, volume_db := none, source_mode := none, is_muted := none }
    (by decide) (by decide)

/-! ## Claim C5 -/

/-- C5: a message matching neither the volume-report pattern nor any fixed
command wire string leaves the current snapshot unchanged and fires no
notification. -/
theorem unrecognized_message_ignored (cur : Option FusionFlexStatus) (msg : List Char)
    (hm : matchVolume msg = none)
    (hfix : msg ∉ [POWER_ON, POWER_OFF, SELECT_INPUT_1, SELECT_INPUT_2, SELECT_INPUT_AUTO,
      MUTE_ON, MUTE_OFF, MUTE_TOGGLE, VOLUME_UP, VOLUME_DOWN]) :
    processMessagePure cur msg = (cur, false) := by
  simp only [List.mem_cons, List.not_mem_nil, or_false, not_or] at hfix
  obtain ⟨h1, h2, h3, h4, h5, h6, h7, h8, h9, h10⟩ := hfix
  unfold processMessagePure processStatus
  rw [stepStatus_none hm h1 h2 h3 h4 h5 h6 h7]
  rfl

/-- Witness for C5: an unknown five-character frame is discarded. -/
theorem unrecognized_message_ignored_witness :
    processMessagePure (some initialStatus) [apos, '@', '9', '9', 'X', apos] =
      (some initialStatus, false) :=
  unrecognized_message_ignored _ _ (by decide) (by decide)

/-! ## Claim C2 -/

/-- C2 counterexample: after the power-off message publishes the snapshot
at heap address zero, processing the mute-on message mutates that same
published object (its address is republished and its contents change),
so the previously published snapshot is not immutable. -/
theorem published_snapshot_mutated_counterexample :
    (processMessageHeap { heap := [], statusRef := none } POWER_OFF).statusRef = some 0 ∧
    (processMessageHeap (processMessageHeap { heap := [], statusRef := none } POWER_OFF)
        MUTE_ON).statusRef = some 0 ∧
    (processMessageHeap { heap := [], statusRef := none } POWER_OFF).heap.get? 0 ≠
      (processMessageHeap (processMessageHeap { heap := [], statusRef := none } POWER_OFF)
        MUTE_ON).heap.get? 0 := by
  decide

/-- C2 (amended): once a snapshot exists, every later update reuses the
very same snapshot object — the published reference is unchanged and no
new object is allocated; updates mutate the shared object in place, so a
snapshot handed to observers can change under them. -/
theorem published_snapshot_reference_reused (s : DevState) (msg : List Char) (r : Nat)
    (h : s.statusRef = some r) :
    (processMessageHeap s msg).statusRef = some r ∧
    (processMessageHeap s msg).heap.length = s.heap.length := by
  unfold processMessageHeap
  rw [h]
  dsimp only
  rcases hg : s.heap.get? r with _ | st
  · exact ⟨h, rfl⟩
  · dsimp only
    rcases hp : processStatus st msg with _ | st1
    · exact ⟨h, rfl⟩
    · exact ⟨rfl, by simp⟩

/-- Witness for C2 (amended): processing the mute-on message on a device
whose snapshot lives at heap address zero republishes address zero and
keeps the heap size at one. -/
theorem published_snapshot_reference_reused_witness :
    (processMessageHeap { heap := [initialStatus], statusRef := some 0 } MUTE_ON).statusRef =
      some 0 ∧
    (processMessageHeap { heap := [initialStatus], statusRef := some 0 } MUTE_ON).heap.length =
      ({ heap := [initialStatus], statusRef := some 0 } : DevState).heap.length :=
  published_snapshot_reference_reused _ MUTE_ON 0 rfl

/-! ## Claim C3 -/

/-- C3 counterexample: the eleven-character volume report carrying minus
99 dB is accepted by the pattern and stored, yet minus 99 is below the
claimed lower bound of minus 95.5. -/
theorem volume_report_range_counterexample :
    processMessagePure none [apos, '@', '1', '1', 'S', '-', '9', '9', '.', '0', apos] =
      (some { is_turned_on := true, volume_db := some (-99), source_mode := none,
              is_muted := none }, true) ∧
    ¬(-(191/2) ≤ (-99 : ℚ)) := by
  constructor
  · have hcore : volumeCore [apos, '@', '1', '1', 'S', '-', '9', '9', '.', '0', apos] =
        some (-99) := by
      rw [volumeCore, if_pos (by decide), digitVal_c9, digitVal_c0]
      norm_num
    have hm : matchVolume [apos, '@', '1', '1', 'S', '-', '9', '9', '.', '0', apos] =
        some (-99) := by
      unfold matchVolume
      rw [hcore]
    unfold processMessagePure processStatus stepStatus
    rw [hm]
    dsimp only [Option.getD, Option.map]
    unfold applyPost
    rw [if_neg (by decide)]
    rfl
  · norm_num

/-- C3 (amended): every accepted volume report stores exactly the value
captured by the pattern, and that value lies in the interval from minus
99.5 dB to 0 dB inclusive and is an integer multiple of one half. -/
theorem volume_report_range (cur : Option FusionFlexStatus) (msg : List Char) (v : ℚ)
    (hm : matchVolume msg = some v) :
    ∃ st1, processMessagePure cur msg = (some st1, true) ∧ st1.volume_db = some v ∧
      -(199/2) ≤ v ∧ v ≤ 0 ∧ ∃ k : ℤ, v = (k : ℚ) / 2 := by
  obtain ⟨hlo, hhi, hk⟩ := matchVolume_bounds hm
  refine ⟨applyPost msg { cur.getD initialStatus with volume_db := some v },
    ?_, applyPost_volume_db .., hlo, hhi, hk⟩
  unfold processMessagePure processStatus stepStatus
  rw [hm]
  rfl

/-- Witness for C3 (amended) at the minus 3 dB volume report. -/
theorem volume_report_range_witness :
    ∃ st1, processMessagePure none [apos, '@', '1', '1', 'S', '-', '0', '3', '.', '0', apos] =
        (some st1, true) ∧
      st1.volume_db = some (-3) ∧ -(199/2) ≤ (-3 : ℚ) ∧ (-3 : ℚ) ≤ 0 ∧
      ∃ k : ℤ, (-3 : ℚ) = (k : ℚ) / 2 :=
  volume_report_range none _ (-3) (by
    unfold matchVolume
    rw [show volumeCore [apos, '@', '1', '1', 'S', '-', '0', '3', '.', '0', apos] =
          some (-3) by
        rw [volumeCore, if_pos (by decide), digitVal_c0, digitVal_c3]
        norm_num])

/-! ## Claim C10 -/

/-- C10: an accepted message only changes its target field (plus possibly
the power flag): a volume report leaves source mode and mute unchanged, a
power message leaves volume, source mode and mute unchanged, an input
selection leaves volume and mute unchanged, and a mute message leaves
volume and source mode unchanged. -/
theorem accepted_message_frame_effect (status : FusionFlexStatus) (msg : List Char)
    (st1 : FusionFlexStatus) (h : processStatus status msg = some st1) :
    ((matchVolume msg).isSome →
      st1.source_mode = status.source_mode ∧ st1.is_muted = status.is_muted) ∧
    ((msg = POWER_ON ∨ msg = POWER_OFF) →
      st1.volume_db = status.volume_db ∧ st1.source_mode = status.source_mode ∧
        st1.is_muted = status.is_muted) ∧
    ((msg = SELECT_INPUT_1 ∨ msg = SELECT_INPUT_2 ∨ msg = SELECT_INPUT_AUTO) →
      st1.volume_db = status.volume_db ∧ st1.is_muted = status.is_muted) ∧
    ((msg = MUTE_ON ∨ msg = MUTE_OFF) →
      st1.volume_db = status.volume_db ∧ st1.source_mode = status.source_mode) := by
  unfold processStatus at h
  rcases hs : stepStatus status msg with _ | st0
  · rw [hs] at h
    simp at h
  · rw [hs] at h
    obtain rfl : st1 = applyPost msg st0 := by simpa using h.symm
    rcases stepStatus_cases hs with ⟨v, hv, rfl⟩ | ⟨rfl, rfl⟩ | ⟨rfl, rfl⟩ | ⟨rfl, rfl⟩ |
      ⟨rfl, rfl⟩ | ⟨rfl, rfl⟩ | ⟨rfl, rfl⟩ | ⟨rfl, rfl⟩
    · refine ⟨?_, ?_, ?_, ?_⟩
      · intro _
        exact ⟨by rw [applyPost_source_mode], by rw [applyPost_is_muted]⟩
      · rintro (rfl | rfl) <;>
          simp [show matchVolume POWER_ON = none from by decide,
            show matchVolume POWER_OFF = none from by decide] at hv
      · rintro (rfl | rfl | rfl) <;>
          simp [show matchVolume SELECT_INPUT_1 = none from by decide,
            show matchVolume SELECT_INPUT_2 = none from by decide,
            show matchVolume SELECT_INPUT_AUTO = none from by decide] at hv
      · rintro (rfl | rfl) <;>
          simp [show matchVolume MUTE_ON = none from by decide,
            show matchVolume MUTE_OFF = none from by decide] at hv
    · exact ⟨fun hx => absurd hx (by decide), fun _ =>
        ⟨by rw [applyPost_volume_db], by rw [applyPost_source_mode], by rw [applyPost_is_muted]⟩,
        fun hx => absurd hx (by decide), fun hx => absurd hx (by decide)⟩
    · exact ⟨fun hx => absurd hx (by decide), fun _ =>
        ⟨by rw [applyPost_volume_db], by rw [applyPost_source_mode], by rw [applyPost_is_muted]⟩,
        fun hx => absurd hx (by decide), fun hx => absurd hx (by decide)⟩
    · exact ⟨fun hx => absurd hx (by decide), fun hx => absurd hx (by decide), fun _ =>
        ⟨by rw [applyPost_volume_db], by rw [applyPost_is_muted]⟩,
        fun hx => absurd hx (by decide)⟩
    · exact ⟨fun hx => absurd hx (by decide), fun hx => absurd hx (by decide), fun _ =>
        ⟨by rw [applyPost_volume_db], by rw [applyPost_is_muted]⟩,
        fun hx => absurd hx (by decide)⟩
    · exact ⟨fun hx => absurd hx (by decide), fun hx => absurd hx (by decide), fun _ =>
        ⟨by rw [applyPost_volume_db], by rw [applyPost_is_muted]⟩,
        fun hx => absurd hx (by decide)⟩
    · exact ⟨fun hx => absurd hx (by decide), fun hx => absurd hx (by decide),
        fun hx => absurd hx (by decide), fun _ =>
        ⟨by rw [applyPost_volume_db], by rw [applyPost_source_mode]⟩⟩
    · exact ⟨fun hx => absurd hx (by decide), fun hx => absurd hx (by decide),
        fun hx => absurd hx (by decide), fun _ =>
        ⟨by rw [applyPost_volume_db], by rw [applyPost_source_mode]⟩⟩

/-- Witness for C10: the mute-on message leaves volume and source mode of
a fully populated status unchanged. -/
theorem accepted_message_frame_effect_witness :
    ({ is_turned_on := true, volume_db := some (-3),
       source_mode := some FusionFlexSourceMode.INPUT_1,
       is_muted := some true } : FusionFlexStatus).volume_db =
      ({ is_turned_on := false, volume_db := some (-3),
         source_mode := some FusionFlexSourceMode.INPUT_1,
         is_muted := some false } : FusionFlexStatus).volume_db ∧
    ({ is_turned_on := true, volume_db := some (-3),
       source_mode := some FusionFlexSourceMode.INPUT_1,
       is_muted := some true } : FusionFlexStatus).source_mode =
      ({ is_turned_on := false, volume_db := some (-3),
         source_mode := some FusionFlexSourceMode.INPUT_1,
         is_muted := some false } : FusionFlexStatus).source_mode :=
  (accepted_message_frame_effect
    { is_turned_on := false, volume_db := some (-3),
      source_mode := some FusionFlexSourceMode.INPUT_1, is_muted := some false }
    MUTE_ON
    { is_turned_on := true, volume_db := some (-3),
      source_mode := some FusionFlexSourceMode.INPUT_1, is_muted := some true }
    rfl).2.2.2 (Or.inl rfl)

/-! ## Claim C1 -/

/-- C1 counterexample: the chunk holding the power-on frame followed by a
stray character emits the message including that character after the
first end token; the claimed truncated message would be the bare power-on
frame. -/
theorem reassembler_truncation_counterexample :
    processData [] [apos, '@', '1', '1', '2', apos, 'X'] =
      ([], [[apos, '@', '1', '1', '2', apos, 'X']]) ∧
    [apos, '@', '1', '1', '2', apos, 'X'] ≠ POWER_ON := by
  decide

/-- C1 (amended): when a nonempty segment containing the end token is
found while the buffer holds a pending start token, the emitted message is
the buffer plus the entire segment, end-token position notwithstanding,
and processing continues with an empty buffer on the remaining segments. -/
theorem reassembler_emits_whole_segment (buf seg : List Char) (rest : List (List Char))
    (hpre : msgStart.isPrefixOf buf) (hend : seg.contains apos = true) (hne : seg ≠ []) :
    (processSegments buf true (seg :: rest)).2 =
      (buf ++ seg) :: (processSegments [] false rest).2 := by
  have hEmpty : seg.isEmpty = false := by
    cases seg
    · exact absurd rfl hne
    · rfl
  rw [processSegments]
  simp only [hEmpty, Bool.false_eq_true, if_false, if_true]
  rw [if_pos hpre, if_pos hend]

/-- Witness for C1 (amended): a buffer holding the start of the power-on
frame joined with a segment carrying text after the end token. -/
theorem reassembler_emits_whole_segment_witness :
    (processSegments [apos, '@', '1', '1'] true [['2', apos, 'X']]).2 =
      ([apos, '@', '1', '1'] ++ ['2', apos, 'X']) :: (processSegments [] false []).2 :=
  reassembler_emits_whole_segment [apos, '@', '1', '1'] ['2', apos, 'X'] []
    (by decide) (by decide) (by decide)

/-! ## Claim C6 -/

/-- C6: a segment without an end token that would push the buffer past 16
bytes resets the buffer to empty, emits nothing, and stops processing the
chunk; and the concrete scenario: a start token followed by 17 filler
bytes yields no message, after which the power-on frame still parses. -/
theorem buffer_overflow_policy :
    (∀ buf seg rest, msgStart.isPrefixOf buf → seg.contains apos = false → seg ≠ [] →
      BUFFER_SIZE < buf.length + seg.length →
      processSegments buf true (seg :: rest) = ([], [])) ∧
    processData [] (msgStart ++ List.replicate 17 'A') = ([], []) ∧
    processData (processData [] (msgStart ++ List.replicate 17 'A')).1 POWER_ON =
      ([], [POWER_ON]) := by
  refine ⟨?_, by decide, by decide⟩
  intro buf seg rest hpre hend hne hover
  have hEmpty : seg.isEmpty = false := by
    cases seg
    · exact absurd rfl hne
    · rfl
  rw [processSegments]
  simp only [hEmpty, Bool.false_eq_true, if_false, if_true]
  rw [if_pos hpre, if_neg (by rw [hend]; exact Bool.false_ne_true), if_neg (by omega)]

/-- Witness for C6: the overflow branch at a buffer holding just the start
token and a segment of 17 filler bytes. -/
theorem buffer_overflow_policy_witness :
    processSegments msgStart true [List.replicate 17 'A'] = ([], []) :=
  buffer_overflow_policy.1 msgStart (List.replicate 17 'A') [] (by decide) (by decide)
    (by decide) (by decide)

/-! ## Claim C7 -/

/-- The Python round builtin lands within half a unit of its argument. -/
lemma pyRound_dist (q : ℚ) : |q - pyRound q| ≤ 1/2 := by
  unfold pyRound
  have h0 : (0 : ℚ) ≤ q - ⌊q⌋ := by
    have := Int.floor_le q
    linarith
  have h1 : q - ⌊q⌋ < 1 := by
    have := Int.lt_floor_add_one q
    linarith
  split_ifs with ha hb hc
  · rw [abs_of_nonneg h0]
    linarith
  · push_cast
    rw [abs_of_nonpos (by linarith)]
    linarith
  · rw [abs_of_nonneg h0]
    linarith
  · push_cast
    rw [abs_of_nonpos (by linarith)]
    linarith

/-- For integer parts below one hundred, the zero-padding of the 04.1f
format yields exactly the two decimal digit characters. -/
lemma pad2_toDigits : ∀ n, n < 100 →
    (if (Nat.toDigits 10 n).length < 2 then
        List.replicate (2 - (Nat.toDigits 10 n).length) '0' ++ Nat.toDigits 10 n
      else Nat.toDigits 10 n) = [Nat.digitChar (n / 10), Nat.digitChar (n % 10)] := by
  decide

/-- C7 counterexample: at input 200 the encoder produces a wire string
whose integer part has three digits (total length 12), while the claimed
format always has a two-digit integer part (total length 11). -/
theorem set_volume_encoding_counterexample :
    encodeVolume 200 = [apos, '@', '1', '1', 'P', '-', '2', '0', '0', '.', '0', apos] ∧
    (encodeVolume 200).length ≠ 11 := by
  have h400 : pyRound (2 * (200 : ℚ)) = 400 := by
    rw [show (2 * (200 : ℚ)) = 400 by norm_num]
    unfold pyRound
    rw [show ⌊(400 : ℚ)⌋ = 400 by norm_num]
    norm_num
  constructor
  · unfold encodeVolume
    rw [h400]
    decide
  · unfold encodeVolume
    rw [h400]
    decide

/-- C7 (amended): whenever the rounded magnitude stays below one hundred
(twice the magnitude at most 199), the encoder emits the start token,
`11P-`, the zero-padded two-digit integer part of the rounded magnitude, a
dot, one fraction digit and the end token; the value rounded to is within
a quarter dB of the input, hence a nearest half-dB multiple; and the
minus 3.2 example encodes to the claimed wire string. -/
theorem set_volume_encoding :
    (∀ v : ℚ, (pyRound (2 * v)).natAbs ≤ 199 →
      encodeVolume v = specSetVolumeFormat (pyRound (2 * v)).natAbs ∧
      |v - (pyRound (2 * v) : ℚ) / 2| ≤ 1/4) ∧
    encodeVolume (-(16/5)) = [apos, '@', '1', '1', 'P', '-', '0', '3', '.', '0', apos] := by
  constructor
  · intro v hk
    constructor
    · unfold encodeVolume specSetVolumeFormat format04_1f
      rw [pad2_toDigits ((pyRound (2 * v)).natAbs / 2) (by omega)]
      rfl
    · have h := pyRound_dist (2 * v)
      have heq : |v - (pyRound (2 * v) : ℚ) / 2| = |2 * v - (pyRound (2 * v) : ℚ)| / 2 := by
        rw [show v - (pyRound (2 * v) : ℚ) / 2 = (2 * v - (pyRound (2 * v) : ℚ)) / 2 by ring,
          abs_div, abs_of_nonneg (by norm_num : (0 : ℚ) ≤ 2)]
      rw [heq]
      linarith
  · have h6 : pyRound (2 * (-(16/5) : ℚ)) = -6 := by
      rw [show (2 * (-(16/5) : ℚ)) = -(32/5) by norm_num]
      unfold pyRound
      rw [show ⌊(-(32/5) : ℚ)⌋ = -7 by norm_num [Int.floor_eq_iff]]
      norm_num
    unfold encodeVolume
    rw [h6]
    decide

/-- Witness for C7 (amended) at the minus 3.2 dB example input. -/
theorem set_volume_encoding_witness :
    encodeVolume (-(16/5)) = specSetVolumeFormat (pyRound (2 * (-(16/5) : ℚ))).natAbs ∧
    |(-(16/5) : ℚ) - (pyRound (2 * (-(16/5) : ℚ)) : ℚ) / 2| ≤ 1/4 :=
  set_volume_encoding.1 (-(16/5)) (by
    rw [show (2 * (-(16/5) : ℚ)) = -(32/5) by norm_num]
    rw [show pyRound (-(32/5) : ℚ) = -6 from by
      unfold pyRound
      rw [show ⌊(-(32/5) : ℚ)⌋ = -7 by norm_num [Int.floor_eq_iff]]
      norm_num]
    decide)
